import Mathlib

/-
Shallow embedding of the vision-impaired shop-assist web client
(Svelte, `client/src/lib`): the barcode CRUD component
(`BarcodeManager.svelte`), the configuration store and its HTTP calls
(`stores/states.svelte.ts`), and the configuration form with its sliders
(`ConfigForm.svelte`, `Slider.svelte`).  The backend `ConfigStore` lives in
the Python server, which is not part of the client sources; it is modelled
from the spec where needed and marked as such.
-/

namespace ShopAssist

/-- JavaScript `a || b` on a string-valued `a` that may be `undefined`:
`undefined` and the empty string are falsy, so the default `d` is used;
any non-empty string short-circuits.  Models expressions such as
`barcode.allergies || "none"` and `data.error || "..."`. -/
def jsOr (v : Option String) (d : String) : String :=
  match v with
  | none => d
  | some s => if s = "" then d else s

/-- The `Barcode` record type of `BarcodeManager.svelte` (lines 4-9):
`allergies?` is the only optional field. -/
structure Barcode where
  barcode : String
  product_name : String
  brand : String
  allergies : Option String
  deriving DecidableEq, Repr

/-- The allergies substitution rendered in each saved-barcode card
(`BarcodeManager.svelte` line 251): `barcode.allergies || "none"`. -/
def allergiesDisplay (b : Barcode) : String :=
  jsOr b.allergies "none"

/-- `Response.ok` of the Fetch API: status in the 200-class. -/
def statusOk (status : Nat) : Bool :=
  200 ≤ status && status < 300

/-- The error message `addBarcode` assigns for a non-OK response
(`BarcodeManager.svelte` lines 57-68): it branches on status 409 and
applies JavaScript `||` to the parsed `data.error`. -/
def addBarcodeErrorMessage (status : Nat) (dataError : Option String) : String :=
  if status = 409 then jsOr dataError "Barcode already exists."
  else jsOr dataError "Failed to add barcode"

/-- Outcome of the `fetch` POST/DELETE inside `addBarcode`/`deleteBarcode`:
either a response arrived, carrying its HTTP status, the parsed `data.error`
(absent for DELETE, whose handler never reads the body), and the list the
follow-up `fetchBarcodes` would return; or the fetch threw (network
failure), in which case the catch block refetches (`none` when that
refetch itself fails and leaves the list untouched). -/
inductive FetchOutcome where
  | resp (status : Nat) (dataError : Option String) (fetched : List Barcode)
  | netError (refetch : Option (List Barcode))
  deriving DecidableEq, Repr

/-- Observable result of one run of `addBarcode` or `deleteBarcode` on the
component state: the optimistic list shown while the request is in flight,
the list after the handler finishes, and the `error`/`success` banners. -/
structure BarcodeListRun where
  optimistic : List Barcode
  final : List Barcode
  error : String
  success : String
  deriving DecidableEq, Repr

/-- `addBarcode` (`BarcodeManager.svelte` lines 32-76): captures the
pre-call list, optimistically appends the new record, then on an OK
response refetches; on a non-OK response restores the captured list and
reports `addBarcodeErrorMessage`; on a thrown fetch it refetches. -/
def addBarcode (pre : List Barcode) (rec : Barcode) (out : FetchOutcome) :
    BarcodeListRun :=
  let optimistic := pre ++ [rec]
  match out with
  | .resp status dataError fetched =>
    if statusOk status then
      ⟨optimistic, fetched, "", "Barcode added successfully"⟩
    else
      ⟨optimistic, pre, addBarcodeErrorMessage status dataError, ""⟩
  | .netError (some fetched) =>
    ⟨optimistic, fetched, "Failed to add barcode. Check network connection.", ""⟩
  | .netError none =>
    ⟨optimistic, optimistic, "Failed to add barcode. Check network connection.", ""⟩

/-- `deleteBarcode` (`BarcodeManager.svelte` lines 78-114): captures the
pre-call list, optimistically filters out entries with the given barcode,
keeps the filtered list on an OK response (no refetch), restores the
captured list on a non-OK response, and refetches on a thrown fetch. -/
def deleteBarcode (pre : List Barcode) (code : String) (out : FetchOutcome) :
    BarcodeListRun :=
  let optimistic := pre.filter (fun b => b.barcode != code)
  match out with
  | .resp status _ _ =>
    if statusOk status then
      ⟨optimistic, optimistic, "", "Barcode deleted successfully"⟩
    else
      ⟨optimistic, pre, "Failed to delete barcode", ""⟩
  | .netError (some fetched) =>
    ⟨optimistic, fetched, "Failed to delete barcode. Check network connection.", ""⟩
  | .netError none =>
    ⟨optimistic, optimistic, "Failed to delete barcode. Check network connection.", ""⟩

/-- One `<input>` of the add-barcode form: its `required` attribute and its
currently bound value. -/
structure FormInput where
  required : Bool
  value : String
  deriving DecidableEq, Repr

/-- The four inputs of the add-barcode form (`BarcodeManager.svelte`
lines 166-225), in document order: product name, brand and barcode carry
the `required` attribute; allergies does not. -/
def newBarcodeFormInputs (barcode product_name brand allergies : String) :
    List FormInput :=
  [⟨true, product_name⟩, ⟨true, brand⟩, ⟨true, barcode⟩, ⟨false, allergies⟩]

/-- HTML constraint validation for form submission: a `required` text input
with an empty value blocks submission; every other input passes. -/
def formSubmittable (inputs : List FormInput) : Bool :=
  inputs.all (fun i => !i.required || i.value != "")

/-- JSON values, as produced by `response.json()` and `JSON.stringify`. -/
inductive Json where
  | jbool (b : Bool)
  | jnum (n : Int)
  | jstr (s : String)
  deriving DecidableEq, Repr

/-- A JavaScript object with flat JSON values, in property-insertion order,
as iterated by `for (const key in data)`. -/
abbrev JsObject := List (String × Json)

/-- JavaScript `key in obj`. -/
def hasKey : JsObject → String → Bool
  | [], _ => false
  | p :: rest, k => if p.1 = k then true else hasKey rest k

/-- Property read `obj[key]` (the first property with that name). -/
def getKey : JsObject → String → Option Json
  | [], _ => none
  | p :: rest, k => if p.1 = k then some p.2 else getKey rest k

/-- The property names of an object. -/
def keysOf (o : JsObject) : List String :=
  o.map (fun p => p.1)

/-- JavaScript property assignment `obj[key] = v`: overwrites the value in
place when `key` is already a property, otherwise appends a new property. -/
def jsAssign (o : JsObject) (k : String) (v : Json) : JsObject :=
  if hasKey o k then o.map (fun p => if p.1 = k then (p.1, v) else p)
  else o ++ [(k, v)]

/-- One iteration of the `fetchConfig` update loop:
`if (key in config) config[key] = data[key]`. -/
def fetchStep (cfg : JsObject) (kv : String × Json) : JsObject :=
  if hasKey cfg kv.1 then jsAssign cfg kv.1 kv.2 else cfg

/-- The update loop of `fetchConfig` (`states.svelte.ts` lines 83-93):
`for (const key in data) if (key in config) config[key] = data[key]`. -/
def fetchConfig (config data : JsObject) : JsObject :=
  data.foldl fetchStep config

/-- The client `Config` interface (`states.svelte.ts` lines 50-57). -/
structure Config where
  DEBUG : Bool
  TTS_SPEED : Int
  THRESHOLDING : Int
  TTS_OCR_TEMPLATE : String
  TTS_BARCODE_FOUND_TEMPLATE : String
  TTS_BARCODE_NOT_FOUND_TEMPLATE : String
  deriving DecidableEq, Repr

/-- The six property names of the `config` state object, in declaration
order. -/
def configKeys : List String :=
  ["DEBUG", "TTS_SPEED", "THRESHOLDING", "TTS_OCR_TEMPLATE",
   "TTS_BARCODE_FOUND_TEMPLATE", "TTS_BARCODE_NOT_FOUND_TEMPLATE"]

/-- `JSON.stringify(config)` viewed structurally: the object serialized in
the POST body of `updateConfig`, one property per `Config` field. -/
def Config.toJsObject (c : Config) : JsObject :=
  [("DEBUG", .jbool c.DEBUG), ("TTS_SPEED", .jnum c.TTS_SPEED),
   ("THRESHOLDING", .jnum c.THRESHOLDING),
   ("TTS_OCR_TEMPLATE", .jstr c.TTS_OCR_TEMPLATE),
   ("TTS_BARCODE_FOUND_TEMPLATE", .jstr c.TTS_BARCODE_FOUND_TEMPLATE),
   ("TTS_BARCODE_NOT_FOUND_TEMPLATE", .jstr c.TTS_BARCODE_NOT_FOUND_TEMPLATE)]

/-- An HTTP request as assembled by `fetch(url, opts)`. -/
structure HttpRequest where
  method : String
  path : String
  contentType : String
  body : JsObject
  deriving DecidableEq, Repr

/-- The request `updateConfig` sends (`states.svelte.ts` lines 104-111):
`POST` to `/api/settings` with the whole current `config` as JSON body. -/
def updateConfigRequest (c : Config) : HttpRequest :=
  ⟨"POST", "/api/settings", "application/json", c.toJsObject⟩

/-- A Fetch API response as read by `updateConfig`. -/
structure FetchResponse where
  status : Nat
  statusText : String
  deriving DecidableEq, Repr

/-- The response handling of `updateConfig` (`states.svelte.ts`
lines 113-115): throws exactly when `!response.ok`. -/
def updateConfig (r : FetchResponse) : Except String Unit :=
  if statusOk r.status then Except.ok ()
  else Except.error ("Failed to update configuration: " ++ r.statusText)

/-- The props of a `Slider.svelte` instance: `min`, `max` and `step` of the
underlying `<input type="range">` (`Slider.svelte` lines 13-29 and 49-58;
`step` defaults to 1). -/
structure SliderProps where
  min : Int
  max : Int
  step : Int
  deriving DecidableEq, Repr

/-- HTML range-input semantics: the values the control can produce are
`min + k·step` for naturals `k`, never exceeding `max`. -/
def SliderProps.producible (p : SliderProps) (v : Int) : Prop :=
  ∃ k : Nat, v = p.min + k * p.step ∧ v ≤ p.max

/-- The Text-to-Speech Speed slider of `ConfigForm.svelte` (lines 20-26):
`min=100`, `max=500`, default step 1, bound to `config.TTS_SPEED`. -/
def ttsSpeedSlider : SliderProps := ⟨100, 500, 1⟩

/-- The Image Thresholding slider of `ConfigForm.svelte` (lines 28-34):
`min=0`, `max=255`, default step 1, bound to `config.THRESHOLDING`. -/
def thresholdingSlider : SliderProps := ⟨0, 255, 1⟩

/-- Modelled from the spec: the backend `ConfigSnapshot` value (spec §3) —
the Python server holding it is not under the client sources. -/
structure ConfigSnapshot where
  debug : Bool
  ttsSpeedWpm : Int
  threshold : Int
  ocrTemplate : String
  barcodeFoundTemplate : String
  barcodeNotFoundTemplate : String
  deriving DecidableEq, Repr

/-- Modelled from the spec: a partial update submitted to
`ConfigStore.update` — a mapping of field to new value, absent fields left
untouched (spec §4.1). -/
structure ConfigUpdate where
  debug : Option Bool
  ttsSpeedWpm : Option Int
  threshold : Option Int
  ocrTemplate : Option String
  barcodeFoundTemplate : Option String
  barcodeNotFoundTemplate : Option String
  deriving DecidableEq, Repr

/-- The opening-brace character of a template placeholder. -/
def lbrace : Char := Char.ofNat 123

/-- The closing-brace character of a template placeholder. -/
def rbrace : Char := Char.ofNat 125

/-- Left-to-right scan collecting the brace-delimited placeholder names of
a template; the second argument holds the characters of the placeholder
currently being read, if any. -/
def scanPlaceholders : List Char → Option (List Char) → List String
  | [], _ => []
  | c :: rest, none =>
    if c = lbrace then scanPlaceholders rest (some [])
    else scanPlaceholders rest none
  | c :: rest, some acc =>
    if c = rbrace then String.mk acc.reverse :: scanPlaceholders rest none
    else scanPlaceholders rest (some (c :: acc))

/-- The placeholder names a template string references. -/
def placeholders (t : String) : List String :=
  scanPlaceholders t.toList none

/-- A template is valid for a field when every placeholder it references is
among the field's documented placeholder names. -/
def templateValid (allowed : List String) (t : String) : Bool :=
  (placeholders t).all (fun p => allowed.contains p)

/-- Documented placeholders of the OCR template (`ConfigForm.svelte`
lines 42-44, spec §4.1). -/
def ocrPlaceholders : List String := ["text"]

/-- Documented placeholders of the barcode-found template
(`ConfigForm.svelte` lines 52-55, spec §4.1). -/
def barcodeFoundPlaceholders : List String := ["product_name", "brand", "allergies"]

/-- Documented placeholders of the barcode-not-found template
(`ConfigForm.svelte` lines 63-65, spec §4.1). -/
def barcodeNotFoundPlaceholders : List String := ["barcode"]

/-- Documented range of `ttsSpeedWpm` (spec §3). -/
def speedInRange (v : Int) : Bool := 100 ≤ v && v ≤ 500

/-- Documented range of `threshold` (spec §3). -/
def thresholdInRange (v : Int) : Bool := 0 ≤ v && v ≤ 255

/-- The names of the invalid fields of one submitted field value: empty
when the field is absent or its value passes its domain check. -/
def checkField {α : Type} (name : String) (v : Option α) (valid : α → Bool) :
    List String :=
  match v with
  | none => []
  | some x => if valid x then [] else [name]

/-- Modelled from the spec: per-field validation of `ConfigStore.update` —
each submitted field is checked independently against its domain
(speed/threshold ranges; templates against their documented placeholder
names), and the invalid field names are reported (spec §4.1). -/
def invalidFields (u : ConfigUpdate) : List String :=
  checkField "ttsSpeedWpm" u.ttsSpeedWpm speedInRange ++
  checkField "threshold" u.threshold thresholdInRange ++
  checkField "ocrTemplate" u.ocrTemplate (templateValid ocrPlaceholders) ++
  checkField "barcodeFoundTemplate" u.barcodeFoundTemplate
    (templateValid barcodeFoundPlaceholders) ++
  checkField "barcodeNotFoundTemplate" u.barcodeNotFoundTemplate
    (templateValid barcodeNotFoundPlaceholders)

/-- Replacing the updated fields of a snapshot with the submitted values. -/
def applyUpdate (s : ConfigSnapshot) (u : ConfigUpdate) : ConfigSnapshot :=
  ⟨u.debug.getD s.debug, u.ttsSpeedWpm.getD s.ttsSpeedWpm,
   u.threshold.getD s.threshold, u.ocrTemplate.getD s.ocrTemplate,
   u.barcodeFoundTemplate.getD s.barcodeFoundTemplate,
   u.barcodeNotFoundTemplate.getD s.barcodeNotFoundTemplate⟩

namespace ConfigStore

/-- Modelled from the spec: `ConfigStore.update(partial) ->
Result<ConfigSnapshot, ValidationError>` — on success the new snapshot is
committed; on any invalid field the update is rejected with the invalid
field names and the prior snapshot is retained (spec §4.1; the Python
backend is not under the client sources). -/
def update (s : ConfigSnapshot) (u : ConfigUpdate) :
    Except (List String) ConfigSnapshot :=
  if invalidFields u = [] then Except.ok (applyUpdate s u)
  else Except.error (invalidFields u)

/-- The snapshot committed after an update attempt: the new snapshot on
success, the prior one on rejection. -/
def committed (s : ConfigSnapshot) (r : Except (List String) ConfigSnapshot) :
    ConfigSnapshot :=
  match r with
  | .ok s' => s'
  | .error _ => s

/-- Modelled from the spec: `ConfigStore.get()` returns the latest
committed snapshot (spec §4.1). -/
def get (s : ConfigSnapshot) : ConfigSnapshot := s

end ConfigStore

/-- An update submitting only `ttsSpeedWpm`, as the POST of
`{ttsSpeedWpm: v}` does. -/
def speedOnlyUpdate (v : Int) : ConfigUpdate :=
  ⟨none, some v, none, none, none, none⟩

/-- The initial `config` state object (`states.svelte.ts` lines 65-72),
viewed as the JavaScript object `fetchConfig` mutates. -/
def configStateObject : JsObject :=
  [("DEBUG", .jbool false), ("TTS_SPEED", .jnum 0), ("THRESHOLDING", .jnum 0),
   ("TTS_OCR_TEMPLATE", .jstr ""), ("TTS_BARCODE_FOUND_TEMPLATE", .jstr ""),
   ("TTS_BARCODE_NOT_FOUND_TEMPLATE", .jstr "")]

/-- A concrete snapshot used to exercise the `ConfigStore` model. -/
def sampleSnapshot : ConfigSnapshot :=
  ⟨false, 300, 128, "", "", ""⟩

/-- C1: for every displayed barcode record, the rendered allergies
substitution is never the empty string, and when the `allergies` field is
absent (`undefined`) or empty it is exactly the token `"none"`. -/
theorem allergiesDisplay_none_token (b : Barcode) :
    allergiesDisplay b ≠ "" ∧
    ((b.allergies = none ∨ b.allergies = some "") → allergiesDisplay b = "none") := by
  constructor
  · cases h : b.allergies with
    | none => simp [allergiesDisplay, jsOr, h]
    | some s =>
      by_cases hs : s = "" <;> simp [allergiesDisplay, jsOr, h, hs]
  · rintro (h | h) <;> simp [allergiesDisplay, jsOr, h]

/-- Witness for C1 at a concrete record with absent allergies. -/
theorem allergiesDisplay_none_token_witness :
    allergiesDisplay ⟨"4029764001807", "Mate", "Loscher", none⟩ = "none" :=
  (allergiesDisplay_none_token ⟨"4029764001807", "Mate", "Loscher", none⟩).2
    (Or.inl rfl)

/-- C3: every value producible by the configuration form's sliders is in
range — the TTS-speed slider yields values in [100, 500] and the
image-thresholding slider yields values in [0, 255]. -/
theorem configForm_slider_bounds (v : Int) :
    (ttsSpeedSlider.producible v → 100 ≤ v ∧ v ≤ 500) ∧
    (thresholdingSlider.producible v → 0 ≤ v ∧ v ≤ 255) := by
  constructor
  · intro h
    obtain ⟨k, hv, hle⟩ := h
    simp only [ttsSpeedSlider] at hv hle
    omega
  · intro h
    obtain ⟨k, hv, hle⟩ := h
    simp only [thresholdingSlider] at hv hle
    omega

/-- Witness for C3 at slider values 300 and 128. -/
theorem configForm_slider_bounds_witness :
    ((100:Int) ≤ 300 ∧ (300:Int) ≤ 500) ∧ ((0:Int) ≤ 128 ∧ (128:Int) ≤ 255) :=
  ⟨(configForm_slider_bounds 300).1
     ⟨200, by simp [ttsSpeedSlider], by simp [ttsSpeedSlider]⟩,
   (configForm_slider_bounds 128).2
     ⟨128, by simp [thresholdingSlider], by simp [thresholdingSlider]⟩⟩

/-- C4: on a 409 response `addBarcode` surfaces the server-supplied error
message, falling back to "Barcode already exists." when the server supplies
none (or an empty one); any non-409 status with no server message gets the
distinct generic fallback. -/
theorem addBarcode_conflict_error_message (status : Nat) (e : String) :
    addBarcodeErrorMessage 409 none = "Barcode already exists." ∧
    addBarcodeErrorMessage 409 (some "") = "Barcode already exists." ∧
    (e ≠ "" → addBarcodeErrorMessage status (some e) = e) ∧
    (status ≠ 409 → addBarcodeErrorMessage status none = "Failed to add barcode") := by
  refine ⟨by simp [addBarcodeErrorMessage, jsOr], by simp [addBarcodeErrorMessage, jsOr], ?_, ?_⟩
  · intro he
    by_cases h409 : status = 409 <;> simp [addBarcodeErrorMessage, jsOr, h409, he]
  · intro h409
    simp [addBarcodeErrorMessage, jsOr, h409]

/-- Witness for C4: a server-supplied message is surfaced verbatim, and a
plain 500 falls back to the generic message. -/
theorem addBarcode_conflict_error_message_witness :
    addBarcodeErrorMessage 409 (some "duplicate entry") = "duplicate entry" ∧
    addBarcodeErrorMessage 500 none = "Failed to add barcode" :=
  ⟨(addBarcode_conflict_error_message 409 "duplicate entry").2.2.1 (by decide),
   (addBarcode_conflict_error_message 500 "x").2.2.2 (by decide)⟩

/-- C5: `updateConfig` POSTs the whole current configuration object as a
JSON map to `/api/settings` (one property per `Config` field), and it
throws exactly when the response status is not in the 200 class. -/
theorem updateConfig_request_and_error (c : Config) (r : FetchResponse) :
    (updateConfigRequest c).method = "POST" ∧
    (updateConfigRequest c).path = "/api/settings" ∧
    (updateConfigRequest c).body = c.toJsObject ∧
    keysOf c.toJsObject = configKeys ∧
    getKey c.toJsObject "TTS_SPEED" = some (.jnum c.TTS_SPEED) ∧
    (updateConfig r = Except.ok () ↔ statusOk r.status = true) ∧
    (statusOk r.status = false →
      updateConfig r =
        Except.error ("Failed to update configuration: " ++ r.statusText)) := by
  refine ⟨rfl, rfl, rfl, rfl, ?_, ?_, ?_⟩
  · simp [Config.toJsObject, getKey]
  · by_cases h : statusOk r.status <;> simp [updateConfig, h]
  · intro h
    simp [updateConfig, h]

/-- Witness for C5: a 500 response makes `updateConfig` throw. -/
theorem updateConfig_request_and_error_witness :
    updateConfig ⟨500, "INTERNAL SERVER ERROR"⟩ =
      Except.error ("Failed to update configuration: " ++ "INTERNAL SERVER ERROR") :=
  (updateConfig_request_and_error ⟨false, 0, 0, "", "", ""⟩
    ⟨500, "INTERNAL SERVER ERROR"⟩).2.2.2.2.2.2 (by decide)

/-- C7: the add-barcode form submits exactly when the barcode, product-name
and brand inputs are non-empty — the allergies input is unconstrained —
and the `Barcode` record type admits a record with absent allergies. -/
theorem addBarcodeForm_required_fields (bc pn br al : String) :
    (formSubmittable (newBarcodeFormInputs bc pn br al) = true ↔
      bc ≠ "" ∧ pn ≠ "" ∧ br ≠ "") ∧
    (Barcode.mk bc pn br none).allergies = none := by
  refine ⟨?_, rfl⟩
  constructor
  · intro h
    simp [formSubmittable, newBarcodeFormInputs] at h
    tauto
  · intro h
    simp [formSubmittable, newBarcodeFormInputs]
    tauto

/-- Witness for C7: a filled form with empty allergies submits. -/
theorem addBarcodeForm_required_fields_witness :
    formSubmittable (newBarcodeFormInputs "123" "Milk" "Acme" "") = true :=
  ((addBarcodeForm_required_fields "123" "Milk" "Acme" "").1).mpr (by decide)

/-- C8: `addBarcode` optimistically appends the new record; a non-OK
server response restores the list to exactly its pre-call value, and an OK
response replaces it with the refetched server list. -/
theorem addBarcode_optimistic_atomic (pre : List Barcode) (entry : Barcode)
    (out : FetchOutcome) :
    (addBarcode pre entry out).optimistic = pre ++ [entry] ∧
    (∀ status dataError fetched, out = .resp status dataError fetched →
      statusOk status = false → (addBarcode pre entry out).final = pre) ∧
    (∀ status dataError fetched, out = .resp status dataError fetched →
      statusOk status = true → (addBarcode pre entry out).final = fetched) := by
  refine ⟨?_, ?_, ?_⟩
  · cases out with
    | resp status dataError fetched =>
      by_cases h : statusOk status <;> simp [addBarcode, h]
    | netError refetch => cases refetch <;> simp [addBarcode]
  · rintro status dataError fetched rfl h
    simp [addBarcode, h]
  · rintro status dataError fetched rfl h
    simp [addBarcode, h]

/-- Witness for C8: a 409 rejection leaves the displayed list at its
pre-call value. -/
theorem addBarcode_optimistic_atomic_witness :
    (addBarcode [⟨"1", "Milk", "Acme", none⟩] ⟨"1", "Milk", "Acme", none⟩
      (.resp 409 none [])).final = [⟨"1", "Milk", "Acme", none⟩] :=
  (addBarcode_optimistic_atomic [⟨"1", "Milk", "Acme", none⟩]
    ⟨"1", "Milk", "Acme", none⟩ (.resp 409 none [])).2.1 409 none [] rfl (by decide)

/-- The optimistic list `deleteBarcode` displays is, in every outcome, the
pre-call list filtered by barcode. -/
theorem deleteBarcode_optimistic_eq (pre : List Barcode) (code : String)
    (out : FetchOutcome) :
    (deleteBarcode pre code out).optimistic =
      pre.filter (fun b => b.barcode != code) := by
  cases out with
  | resp status dataError fetched =>
    by_cases h : statusOk status <;> simp [deleteBarcode, h]
  | netError refetch => cases refetch <;> simp [deleteBarcode]

/-- C10: `deleteBarcode`'s optimistic update removes exactly the entries
whose barcode equals the argument (keeping all others, with multiplicity,
in order), and a non-OK server response restores the pre-call list. -/
theorem deleteBarcode_filter_and_restore (pre : List Barcode) (code : String)
    (out : FetchOutcome) :
    (deleteBarcode pre code out).optimistic.Sublist pre ∧
    (∀ b : Barcode, b.barcode = code →
      b ∉ (deleteBarcode pre code out).optimistic) ∧
    (∀ b : Barcode, b.barcode ≠ code →
      (deleteBarcode pre code out).optimistic.count b = pre.count b) ∧
    (∀ status dataError fetched, out = .resp status dataError fetched →
      statusOk status = false → (deleteBarcode pre code out).final = pre) := by
  rw [deleteBarcode_optimistic_eq] at *
  refine ⟨List.filter_sublist pre, ?_, ?_, ?_⟩
  · intro b hb hmem
    rw [List.mem_filter] at hmem
    simp [hb] at hmem
  · intro b hb
    apply List.count_filter
    simp [hb]
  · rintro status dataError fetched rfl h
    simp [deleteBarcode, h]

/-- Witness for C10: a failed delete of barcode "1" leaves the two-entry
list at its pre-call value, and entry "2" is untouched optimistically. -/
theorem deleteBarcode_filter_and_restore_witness :
    (deleteBarcode [⟨"1", "Milk", "Acme", none⟩, ⟨"2", "Tea", "Oy", none⟩] "1"
      (.resp 500 none [])).final =
      [⟨"1", "Milk", "Acme", none⟩, ⟨"2", "Tea", "Oy", none⟩] ∧
    (deleteBarcode [⟨"1", "Milk", "Acme", none⟩, ⟨"2", "Tea", "Oy", none⟩] "1"
      (.resp 500 none [])).optimistic.count ⟨"2", "Tea", "Oy", none⟩ =
      [⟨"1", "Milk", "Acme", none⟩, ⟨"2", "Tea", "Oy", none⟩].count
        (⟨"2", "Tea", "Oy", none⟩ : Barcode) :=
  ⟨(deleteBarcode_filter_and_restore
      [⟨"1", "Milk", "Acme", none⟩, ⟨"2", "Tea", "Oy", none⟩] "1"
      (.resp 500 none [])).2.2.2 500 none [] rfl (by decide),
   (deleteBarcode_filter_and_restore
      [⟨"1", "Milk", "Acme", none⟩, ⟨"2", "Tea", "Oy", none⟩] "1"
      (.resp 500 none [])).2.2.1 ⟨"2", "Tea", "Oy", none⟩ (by decide)⟩

/-- An update with at least one invalid field is rejected with the invalid
field names and the prior snapshot is retained. -/
theorem update_rejected_of_mem (s : ConfigSnapshot) (u : ConfigUpdate)
    (x : String) (hx : x ∈ invalidFields u) :
    ConfigStore.update s u = Except.error (invalidFields u) ∧
    ConfigStore.get (ConfigStore.committed s (ConfigStore.update s u)) = s := by
  have hne : invalidFields u ≠ [] := by
    intro h0
    rw [h0] at hx
    exact List.not_mem_nil x hx
  constructor
  · simp [ConfigStore.update, hne]
  · simp [ConfigStore.update, hne, ConfigStore.committed, ConfigStore.get]

/-- C2: an update carrying an out-of-range `ttsSpeedWpm` is rejected with
an explicit error naming the field and the committed snapshot is unchanged;
an in-range `ttsSpeedWpm` update is accepted and the new value is visible
to a subsequent `get()`. -/
theorem configStore_update_ttsSpeedWpm_range (s : ConfigSnapshot)
    (u : ConfigUpdate) (v : Int) :
    (u.ttsSpeedWpm = some v → speedInRange v = false →
      (∃ errs, ConfigStore.update s u = Except.error errs ∧ "ttsSpeedWpm" ∈ errs) ∧
      ConfigStore.get (ConfigStore.committed s (ConfigStore.update s u)) = s) ∧
    (speedInRange v = true →
      ConfigStore.update s (speedOnlyUpdate v) =
        Except.ok (applyUpdate s (speedOnlyUpdate v)) ∧
      (ConfigStore.get (ConfigStore.committed s
        (ConfigStore.update s (speedOnlyUpdate v)))).ttsSpeedWpm = v) := by
  constructor
  · intro hv hsp
    have hmem : "ttsSpeedWpm" ∈ invalidFields u := by
      simp [invalidFields, checkField, hv, hsp]
    obtain ⟨herr, hget⟩ := update_rejected_of_mem s u "ttsSpeedWpm" hmem
    exact ⟨⟨invalidFields u, herr, hmem⟩, hget⟩
  · intro hsp
    have h0 : invalidFields (speedOnlyUpdate v) = [] := by
      simp [invalidFields, checkField, speedOnlyUpdate, hsp]
    constructor
    · simp [ConfigStore.update, h0]
    · simp only [ConfigStore.update, h0, if_true, reduceIte,
        ConfigStore.committed, ConfigStore.get]
      simp [applyUpdate, speedOnlyUpdate]

/-- Witness for C2: `ttsSpeedWpm=50` is rejected naming the field while
`ttsSpeedWpm=300` is accepted and visible to `get()`. -/
theorem configStore_update_ttsSpeedWpm_range_witness :
    (∃ errs, ConfigStore.update sampleSnapshot (speedOnlyUpdate 50) =
      Except.error errs ∧ "ttsSpeedWpm" ∈ errs) ∧
    (ConfigStore.get (ConfigStore.committed sampleSnapshot
      (ConfigStore.update sampleSnapshot (speedOnlyUpdate 300)))).ttsSpeedWpm = 300 :=
  ⟨((configStore_update_ttsSpeedWpm_range sampleSnapshot (speedOnlyUpdate 50) 50).1
      rfl (by decide)).1,
   ((configStore_update_ttsSpeedWpm_range sampleSnapshot (speedOnlyUpdate 300) 300).2
      (by decide)).2⟩

/-- A template referencing a placeholder outside the allowed set fails the
template check. -/
theorem templateValid_eq_false (allowed : List String) (t p : String)
    (hp : p ∈ placeholders t) (hpa : p ∉ allowed) :
    templateValid allowed t = false := by
  by_contra h
  have htrue : templateValid allowed t = true := by
    cases hval : templateValid allowed t with
    | false => exact absurd hval h
    | true => rfl
  have hall := List.all_eq_true.mp htrue p hp
  exact hpa (List.mem_of_elem_eq_true hall)

/-- C6: `ConfigStore.update` rejects a template value referencing any
placeholder outside the field's documented set (`text` for OCR;
`product_name`/`brand`/`allergies` for barcode-found; `barcode` for
barcode-not-found), and the committed snapshot is unchanged. -/
theorem configStore_update_rejects_undocumented_placeholders
    (s : ConfigSnapshot) (u : ConfigUpdate) (t p : String)
    (hp : p ∈ placeholders t)
    (hfield :
      (u.ocrTemplate = some t ∧ p ∉ ocrPlaceholders) ∨
      (u.barcodeFoundTemplate = some t ∧ p ∉ barcodeFoundPlaceholders) ∨
      (u.barcodeNotFoundTemplate = some t ∧ p ∉ barcodeNotFoundPlaceholders)) :
    (∃ errs, ConfigStore.update s u = Except.error errs) ∧
    ConfigStore.get (ConfigStore.committed s (ConfigStore.update s u)) = s := by
  rcases hfield with ⟨ht, hpa⟩ | ⟨ht, hpa⟩ | ⟨ht, hpa⟩
  · have hmem : "ocrTemplate" ∈ invalidFields u := by
      simp [invalidFields, checkField, ht, templateValid_eq_false _ t p hp hpa]
    obtain ⟨herr, hget⟩ := update_rejected_of_mem s u "ocrTemplate" hmem
    exact ⟨⟨invalidFields u, herr⟩, hget⟩
  · have hmem : "barcodeFoundTemplate" ∈ invalidFields u := by
      simp [invalidFields, checkField, ht, templateValid_eq_false _ t p hp hpa]
    obtain ⟨herr, hget⟩ := update_rejected_of_mem s u "barcodeFoundTemplate" hmem
    exact ⟨⟨invalidFields u, herr⟩, hget⟩
  · have hmem : "barcodeNotFoundTemplate" ∈ invalidFields u := by
      simp [invalidFields, checkField, ht, templateValid_eq_false _ t p hp hpa]
    obtain ⟨herr, hget⟩ := update_rejected_of_mem s u "barcodeNotFoundTemplate" hmem
    exact ⟨⟨invalidFields u, herr⟩, hget⟩

/-- Witness for C6: an OCR template referencing `barcode` is rejected. -/
theorem configStore_update_rejects_undocumented_placeholders_witness :
    ∃ errs, ConfigStore.update sampleSnapshot
      ⟨none, none, none, some "Detected {barcode}", none, none⟩ =
        Except.error errs :=
  (configStore_update_rejects_undocumented_placeholders sampleSnapshot
    ⟨none, none, none, some "Detected {barcode}", none, none⟩
    "Detected {barcode}" "barcode" (by decide)
    (Or.inl ⟨rfl, by decide⟩)).1

/-- Overwriting an existing property in place preserves the property
names. -/
theorem keysOf_assignMap (o : JsObject) (k : String) (v : Json) :
    keysOf (o.map (fun p => if p.1 = k then (p.1, v) else p)) = keysOf o := by
  induction o with
  | nil => rfl
  | cons p rest ih =>
    by_cases h : p.1 = k
    · simpa [keysOf, h] using ih
    · simpa [keysOf, h] using ih

/-- Reading the overwritten property back. -/
theorem getKey_assignMap_self (o : JsObject) (k : String) (v : Json) :
    getKey (o.map (fun p => if p.1 = k then (p.1, v) else p)) k =
      if hasKey o k then some v else none := by
  induction o with
  | nil => simp [getKey, hasKey]
  | cons p rest ih =>
    by_cases h : p.1 = k
    · simp [getKey, hasKey, h]
    · simp [getKey, hasKey, h, ih]

/-- Overwriting one property leaves every other property's value alone. -/
theorem getKey_assignMap_ne (o : JsObject) (k' k : String) (v : Json)
    (hne : k' ≠ k) :
    getKey (o.map (fun p => if p.1 = k' then (p.1, v) else p)) k = getKey o k := by
  induction o with
  | nil => rfl
  | cons p rest ih =>
    by_cases h : p.1 = k'
    · have hpk : p.1 ≠ k := by rw [h]; exact hne
      simp [getKey, h, hpk, hne, ih]
    · by_cases h2 : p.1 = k
      · simp [getKey, h, h2, Ne.symm hne, ih]
      · simp [getKey, h, h2, ih]

/-- Appending a fresh property does not change reads of other names. -/
theorem getKey_append_ne (o : JsObject) (k' k : String) (v : Json)
    (hne : k' ≠ k) :
    getKey (o ++ [(k', v)]) k = getKey o k := by
  induction o with
  | nil => simp [getKey, hne]
  | cons p rest ih =>
    by_cases h : p.1 = k <;> simp [getKey, h, ih]

/-- `jsAssign` on an existing key preserves the property names. -/
theorem keysOf_jsAssign_of_hasKey (o : JsObject) (k : String) (v : Json)
    (h : hasKey o k = true) : keysOf (jsAssign o k v) = keysOf o := by
  simp [jsAssign, h, keysOf_assignMap]

/-- `jsAssign` on an existing key is read back as the new value. -/
theorem getKey_jsAssign_self (o : JsObject) (k : String) (v : Json)
    (h : hasKey o k = true) : getKey (jsAssign o k v) k = some v := by
  simp [jsAssign, h, getKey_assignMap_self]

/-- `jsAssign` leaves reads of other property names alone. -/
theorem getKey_jsAssign_ne (o : JsObject) (k' k : String) (v : Json)
    (hne : k' ≠ k) : getKey (jsAssign o k' v) k = getKey o k := by
  by_cases h : hasKey o k' <;>
    simp [jsAssign, h, getKey_assignMap_ne o k' k v hne, getKey_append_ne o k' k v hne]

/-- One guarded iteration of the `fetchConfig` loop preserves the property
names of the config object. -/
theorem keysOf_fetchStep (cfg : JsObject) (kv : String × Json) :
    keysOf (fetchStep cfg kv) = keysOf cfg := by
  by_cases h : hasKey cfg kv.1 <;> simp [fetchStep, h, keysOf_jsAssign_of_hasKey]

/-- One guarded iteration leaves reads of other property names alone. -/
theorem getKey_fetchStep_ne (cfg : JsObject) (kv : String × Json) (k : String)
    (hne : kv.1 ≠ k) : getKey (fetchStep cfg kv) k = getKey cfg k := by
  by_cases h : hasKey cfg kv.1 <;>
    simp [fetchStep, h, getKey_jsAssign_ne cfg kv.1 k kv.2 hne]

/-- `hasKey` agrees with membership in the property names. -/
theorem hasKey_eq_true_iff (o : JsObject) (k : String) :
    hasKey o k = true ↔ k ∈ keysOf o := by
  induction o with
  | nil => simp [hasKey, keysOf]
  | cons p rest ih =>
    by_cases h : p.1 = k
    · simp [hasKey, keysOf, h]
    · have h' : ¬k = p.1 := fun hh => h hh.symm
      simp [hasKey, keysOf, h, h', ih]

/-- Objects with the same property names agree on `hasKey`. -/
theorem hasKey_eq_of_keysOf_eq (a b : JsObject) (k : String)
    (h : keysOf a = keysOf b) : hasKey a k = hasKey b k := by
  cases ha : hasKey a k with
  | true =>
    have hmem := (hasKey_eq_true_iff a k).mp ha
    rw [h] at hmem
    exact ((hasKey_eq_true_iff b k).mpr hmem).symm
  | false =>
    cases hb : hasKey b k with
    | false => rfl
    | true =>
      have hmem := (hasKey_eq_true_iff b k).mp hb
      rw [← h] at hmem
      have := (hasKey_eq_true_iff a k).mpr hmem
      rw [ha] at this
      exact (Bool.false_ne_true this).elim

/-- A property name the object lacks reads as `undefined`. -/
theorem getKey_eq_none_of_hasKey_false (o : JsObject) (k : String)
    (h : hasKey o k = false) : getKey o k = none := by
  induction o with
  | nil => rfl
  | cons p rest ih =>
    by_cases hpk : p.1 = k
    · simp only [hasKey, if_pos hpk] at h
      exact absurd h (by decide)
    · simp only [hasKey, if_neg hpk] at h
      simp [getKey, hpk, ih h]

/-- Unfolding one step of the `fetchConfig` fold. -/
theorem fetchConfig_cons (cfg : JsObject) (kv : String × Json)
    (rest : List (String × Json)) :
    fetchConfig cfg (kv :: rest) = fetchConfig (fetchStep cfg kv) rest := rfl

/-- The `fetchConfig` loop never changes the property names of the config
object. -/
theorem keysOf_fetchConfig (data : JsObject) :
    ∀ cfg : JsObject, keysOf (fetchConfig cfg data) = keysOf cfg := by
  induction data with
  | nil => intro cfg; rfl
  | cons kv rest ih =>
    intro cfg
    rw [fetchConfig_cons, ih, keysOf_fetchStep]

/-- Properties whose name never occurs in the response keep their value
through the whole loop. -/
theorem getKey_fetchConfig_of_not_mem (data : JsObject) :
    ∀ (cfg : JsObject) (k : String), (∀ kv ∈ data, kv.1 ≠ k) →
      getKey (fetchConfig cfg data) k = getKey cfg k := by
  induction data with
  | nil => intro cfg k _; rfl
  | cons kv rest ih =>
    intro cfg k h
    rw [fetchConfig_cons, ih _ k (fun x hx => h x (List.mem_cons_of_mem kv hx)),
      getKey_fetchStep_ne cfg kv k (h kv (List.mem_cons_self kv rest))]

/-- A response entry whose name is already a config property overwrites
that property. -/
theorem getKey_fetchConfig_known (data : JsObject) :
    ∀ (cfg : JsObject) (k : String) (v : Json),
      (data.map Prod.fst).Nodup → (k, v) ∈ data → hasKey cfg k = true →
      getKey (fetchConfig cfg data) k = some v := by
  induction data with
  | nil =>
    intro cfg k v _ hmem _
    cases hmem
  | cons kv rest ih =>
    intro cfg k v hnd hmem hk
    rw [List.map_cons, List.nodup_cons] at hnd
    obtain ⟨hhead, hrest⟩ := hnd
    rw [fetchConfig_cons]
    rcases List.mem_cons.mp hmem with heq | hmem'
    · subst heq
      have hnot : ∀ x ∈ rest, x.1 ≠ k := by
        intro x hx hxk
        apply hhead
        show k ∈ List.map Prod.fst rest
        rw [← hxk]
        exact List.mem_map_of_mem Prod.fst hx
      rw [getKey_fetchConfig_of_not_mem rest _ k hnot]
      simp only [fetchStep]
      simp [hk, getKey_jsAssign_self cfg k v hk]
    · have hne : kv.1 ≠ k := by
        intro hkk
        apply hhead
        rw [hkk]
        exact List.mem_map_of_mem Prod.fst hmem'
      have hk' : hasKey (fetchStep cfg kv) k = true := by
        rw [hasKey_eq_of_keysOf_eq (fetchStep cfg kv) cfg k (keysOf_fetchStep cfg kv)]
        exact hk
      exact ih (fetchStep cfg kv) k v hrest hmem' hk'

/-- C9: on any JSON response, `fetchConfig` assigns only property names the
local config object already has — with the six `Config` keys, a present
known key is overwritten with the response value, every unknown key is
ignored, and no new property is ever added. -/
theorem fetchConfig_assigns_only_known_keys (cfg data : JsObject)
    (hcfg : keysOf cfg = configKeys) :
    keysOf (fetchConfig cfg data) = configKeys ∧
    ((data.map Prod.fst).Nodup → ∀ k v, (k, v) ∈ data → k ∈ configKeys →
      getKey (fetchConfig cfg data) k = some v) ∧
    (∀ k, k ∉ configKeys → getKey (fetchConfig cfg data) k = none) := by
  refine ⟨?_, ?_, ?_⟩
  · rw [keysOf_fetchConfig, hcfg]
  · intro hnd k v hmem hk
    apply getKey_fetchConfig_known data cfg k v hnd hmem
    apply (hasKey_eq_true_iff cfg k).mpr
    rw [hcfg]
    exact hk
  · intro k hk
    have hfalse : hasKey cfg k = false := by
      cases h : hasKey cfg k with
      | false => rfl
      | true =>
        have := (hasKey_eq_true_iff cfg k).mp h
        rw [hcfg] at this
        exact absurd this hk
    apply getKey_eq_none_of_hasKey_false
    rw [hasKey_eq_of_keysOf_eq (fetchConfig cfg data) cfg k (keysOf_fetchConfig data cfg)]
    exact hfalse

/-- Witness for C9: a response carrying a known key and an unknown key
updates the known one, ignores the unknown one, and leaves the six
property names unchanged. -/
theorem fetchConfig_assigns_only_known_keys_witness :
    keysOf (fetchConfig configStateObject
      [("TTS_SPEED", .jnum 300), ("INJECTED", .jnum 1)]) = configKeys ∧
    getKey (fetchConfig configStateObject
      [("TTS_SPEED", .jnum 300), ("INJECTED", .jnum 1)]) "TTS_SPEED" =
      some (.jnum 300) ∧
    getKey (fetchConfig configStateObject
      [("TTS_SPEED", .jnum 300), ("INJECTED", .jnum 1)]) "INJECTED" = none :=
  ⟨(fetchConfig_assigns_only_known_keys configStateObject
      [("TTS_SPEED", .jnum 300), ("INJECTED", .jnum 1)] (by decide)).1,
   (fetchConfig_assigns_only_known_keys configStateObject
      [("TTS_SPEED", .jnum 300), ("INJECTED", .jnum 1)] (by decide)).2.1
      (by decide) "TTS_SPEED" (.jnum 300) (by decide) (by decide),
   (fetchConfig_assigns_only_known_keys configStateObject
      [("TTS_SPEED", .jnum 300), ("INJECTED", .jnum 1)] (by decide)).2.2
      "INJECTED" (by decide)⟩

end ShopAssist
